import Mathlib

/-
Verification of the s3 client library (Go package s3).

The development shallowly embeds the package's data model and operations:
  * the request signer signRequest (HMAC-SHA1 over a canonical string),
  * the multipart coordinator S3Multipart with AddPart, Complete, Abort,
  * StartMultipart and the error wrapper wrapError,
  * the whole-stream chunking driver putMultipart and the dispatching Put.

Machine integers are modelled as Nat (with explicit reduction modulo 2^32
inside SHA1) and int64 values as Int.  Go byte strings are List Nat via
UTF-8 encoding.  HTTP is modelled by explicit request/response records; the
network is a Transport function supplied by each theorem, and every
operation returns the list of requests it issued so that statements about
"no network call" and about the exact requests sent are expressible.
Mutation of the session is modelled by returning the updated session; the
per-session mutex serialises the operations in Go, so the sequential
semantics modelled here is the observable one.
-/

namespace S3Go

/-! ### Bytes, UTF-8, hex, percent-escaping -/

-- UTF-8 encoding of a single code point (Go []byte(string) semantics).
def utf8Bytes (c : Char) : List Nat :=
  let n := c.toNat
  if n < 0x80 then [n]
  else if n < 0x800 then
    [0xC0 ||| (n >>> 6), 0x80 ||| (n &&& 0x3F)]
  else if n < 0x10000 then
    [0xE0 ||| (n >>> 12), 0x80 ||| ((n >>> 6) &&& 0x3F), 0x80 ||| (n &&& 0x3F)]
  else
    [0xF0 ||| (n >>> 18), 0x80 ||| ((n >>> 12) &&& 0x3F),
     0x80 ||| ((n >>> 6) &&& 0x3F), 0x80 ||| (n &&& 0x3F)]

-- Go []byte(s): the UTF-8 bytes of a string.
def strBytes (s : String) : List Nat := s.data.flatMap utf8Bytes

def hexDigitUpper (n : Nat) : Char := "0123456789ABCDEF".data.getD n '0'

-- A byte that net/url leaves unescaped in a query component:
-- alphanumerics and - _ . ~ .
def isUnreservedQueryByte (b : Nat) : Bool :=
  (65 ≤ b && b ≤ 90) || (97 ≤ b && b ≤ 122) || (48 ≤ b && b ≤ 57) ||
    b == 45 || b == 95 || b == 46 || b == 126

def escapeQueryByte (b : Nat) : List Char :=
  if b == 32 then ['+']
  else if isUnreservedQueryByte b then [Char.ofNat b]
  else ['%', hexDigitUpper (b >>> 4), hexDigitUpper (b &&& 15)]

-- Go url.QueryEscape.
def queryEscape (s : String) : String :=
  String.mk ((strBytes s).flatMap escapeQueryByte)

/-! ### SHA-1 and HMAC-SHA1 (crypto/hmac with crypto/sha1) -/

def w32 (n : Nat) : Nat := n % 4294967296

def rotl (x n : Nat) : Nat := w32 ((x <<< n) ||| (x >>> (32 - n)))

def bytesToWords : List Nat → List Nat
  | b0 :: b1 :: b2 :: b3 :: rest =>
    ((b0 <<< 24) ||| (b1 <<< 16) ||| (b2 <<< 8) ||| b3) :: bytesToWords rest
  | _ => []

def sha1Extend (ws : List Nat) : Nat → List Nat
  | 0 => ws
  | n + 1 =>
    let l := ws.length
    sha1Extend
      (ws ++ [rotl ((ws.getD (l - 3) 0) ^^^ (ws.getD (l - 8) 0) ^^^
                    (ws.getD (l - 14) 0) ^^^ (ws.getD (l - 16) 0)) 1]) n

def sha1F (t b c d : Nat) : Nat :=
  if t < 20 then (b &&& c) ||| ((b ^^^ 4294967295) &&& d)
  else if t < 40 then b ^^^ c ^^^ d
  else if t < 60 then (b &&& c) ||| (b &&& d) ||| (c &&& d)
  else b ^^^ c ^^^ d

def sha1K (t : Nat) : Nat :=
  if t < 20 then 0x5A827999
  else if t < 40 then 0x6ED9EBA1
  else if t < 60 then 0x8F1BBCDC
  else 0xCA62C1D6

def sha1Step (st : Nat × Nat × Nat × Nat × Nat) (tw : Nat × Nat) :
    Nat × Nat × Nat × Nat × Nat :=
  let (a, b, c, d, e) := st
  let (t, w) := tw
  let temp := w32 (rotl a 5 + sha1F t b c d + e + sha1K t + w)
  (temp, a, rotl b 30, c, d)

def sha1Block (h : Nat × Nat × Nat × Nat × Nat) (block : List Nat) :
    Nat × Nat × Nat × Nat × Nat :=
  let ws := sha1Extend (bytesToWords block) 64
  let (a, b, c, d, e) := ws.enum.foldl sha1Step h
  (w32 (h.1 + a), w32 (h.2.1 + b), w32 (h.2.2.1 + c), w32 (h.2.2.2.1 + d),
   w32 (h.2.2.2.2 + e))

-- Split into 64-byte blocks; the fuel argument (the list length) keeps the
-- recursion structural so that the kernel can evaluate it.
def blocksGo : Nat → List Nat → List (List Nat)
  | 0, _ => []
  | _, [] => []
  | fuel + 1, x :: xs => (x :: xs).take 64 :: blocksGo fuel ((x :: xs).drop 64)

def chunks64 (l : List Nat) : List (List Nat) := blocksGo l.length l

def wordBytesBE (n : Nat) : List Nat :=
  [(n >>> 24) % 256, (n >>> 16) % 256, (n >>> 8) % 256, n % 256]

def sha1Pad (msg : List Nat) : List Nat :=
  let len := msg.length
  let bitLen := 8 * len
  let zeros := (119 - (len % 64)) % 64
  msg ++ [0x80] ++ List.replicate zeros 0 ++
    [(bitLen >>> 56) % 256, (bitLen >>> 48) % 256, (bitLen >>> 40) % 256,
     (bitLen >>> 32) % 256, (bitLen >>> 24) % 256, (bitLen >>> 16) % 256,
     (bitLen >>> 8) % 256, bitLen % 256]

def sha1 (msg : List Nat) : List Nat :=
  let (h0, h1, h2, h3, h4) :=
    (chunks64 (sha1Pad msg)).foldl sha1Block
      (0x67452301, 0xEFCDAB89, 0x98BADCFE, 0x10325476, 0xC3D2E1F0)
  wordBytesBE h0 ++ wordBytesBE h1 ++ wordBytesBE h2 ++ wordBytesBE h3 ++
    wordBytesBE h4

def hmacSha1 (key msg : List Nat) : List Nat :=
  let key := if 64 < key.length then sha1 key else key
  let key := key ++ List.replicate (64 - key.length) 0
  sha1 ((key.map (fun b => b ^^^ 0x5c)) ++
        sha1 ((key.map (fun b => b ^^^ 0x36)) ++ msg))

/-! ### Base64 (encoding/base64 StdEncoding) -/

def b64Char (n : Nat) : Char :=
  "ABCDEFGHIJKLMNOPQRSTUVWXYZabcdefghijklmnopqrstuvwxyz0123456789+/".data.getD n 'A'

def base64Go : List Nat → List Char
  | b0 :: b1 :: b2 :: rest =>
    b64Char (b0 >>> 2) :: b64Char (((b0 &&& 3) <<< 4) ||| (b1 >>> 4)) ::
    b64Char (((b1 &&& 15) <<< 2) ||| (b2 >>> 6)) :: b64Char (b2 &&& 63) ::
    base64Go rest
  | [b0, b1] =>
    [b64Char (b0 >>> 2), b64Char (((b0 &&& 3) <<< 4) ||| (b1 >>> 4)),
     b64Char ((b1 &&& 15) <<< 2), '=']
  | [b0] =>
    [b64Char (b0 >>> 2), b64Char ((b0 &&& 3) <<< 4), '=', '=']
  | [] => []

def base64Encode (bs : List Nat) : String := String.mk (base64Go bs)

/-! ### Byte-wise lexicographic order on strings (Go string comparison) -/

def lexLe : List Char → List Char → Bool
  | [], _ => true
  | _ :: _, [] => false
  | a :: as, b :: bs => if a < b then true else if b < a then false else lexLe as bs

-- Go string ordering (sort.Strings).  Char-wise comparison of code points
-- coincides with Go byte-wise comparison because UTF-8 is order-preserving.
def goStrLe (a b : String) : Prop := lexLe a.data b.data = true

instance : DecidableRel goStrLe := fun a b => by
  unfold goStrLe
  infer_instance

theorem lexLe_total (a b : List Char) : lexLe a b = true ∨ lexLe b a = true := by
  induction a generalizing b with
  | nil => left; rfl
  | cons x xs ih =>
    cases b with
    | nil => right; rfl
    | cons y ys =>
      rcases lt_trichotomy x y with h | h | h
      · left; simp [lexLe, h]
      · subst h
        rcases ih ys with h2 | h2
        · left; simp [lexLe, h2]
        · right; simp [lexLe, h2]
      · right; simp [lexLe, h]

theorem lexLe_trans {a b c : List Char} (h1 : lexLe a b = true)
    (h2 : lexLe b c = true) : lexLe a c = true := by
  induction a generalizing b c with
  | nil => rfl
  | cons x xs ih =>
    cases b with
    | nil => simp [lexLe] at h1
    | cons y ys =>
      cases c with
      | nil => simp [lexLe] at h2
      | cons z zs =>
        simp only [lexLe] at h1 h2 ⊢
        rcases lt_trichotomy x y with hxy | hxy | hxy
        · rcases lt_trichotomy y z with hyz | hyz | hyz
          · simp [lt_trans hxy hyz]
          · subst hyz; simp [hxy]
          · simp [not_lt.mpr (le_of_lt hyz), hyz] at h2
        · subst hxy
          rcases lt_trichotomy x z with hyz | hyz | hyz
          · simp [hyz]
          · subst hyz
            simp only [lt_irrefl, if_false] at h1 h2 ⊢
            exact ih h1 h2
          · simp [not_lt.mpr (le_of_lt hyz), hyz] at h2
        · simp [not_lt.mpr (le_of_lt hxy), hxy] at h1

theorem lexLe_antisymm {a b : List Char} (h1 : lexLe a b = true)
    (h2 : lexLe b a = true) : a = b := by
  induction a generalizing b with
  | nil =>
    cases b with
    | nil => rfl
    | cons y ys => simp [lexLe] at h2
  | cons x xs ih =>
    cases b with
    | nil => simp [lexLe] at h1
    | cons y ys =>
      simp only [lexLe] at h1 h2
      rcases lt_trichotomy x y with hxy | hxy | hxy
      · simp [not_lt.mpr (le_of_lt hxy), hxy] at h2
      · subst hxy
        simp only [lt_irrefl, if_false] at h1 h2
        exact congrArg (x :: ·) (ih h1 h2)
      · simp [not_lt.mpr (le_of_lt hxy), hxy] at h1

instance : IsTotal String goStrLe := ⟨fun a b => lexLe_total a.data b.data⟩

instance : IsTrans String goStrLe := ⟨fun _ _ _ => lexLe_trans⟩

instance : IsAntisymm String goStrLe :=
  ⟨fun a b h1 h2 => by
    cases a with
    | mk da =>
      cases b with
      | mk db => exact congrArg String.mk (lexLe_antisymm h1 h2)⟩

/-! ### HTTP model

Requests carry their parsed query (req.URL.Query()) as a list of pairs in
order; headers as a list of pairs with Set replacing and Get returning ""
when absent, as net/http does.  A response's body is a stream: readAll
(ioutil.ReadAll) returns the remaining content and leaves the stream
exhausted.  The rewrite of req.URL.RawQuery inside signRequest is captured
by the canonical query computation itself; no construct observes RawQuery
afterwards. -/

structure HttpRequest where
  method : String
  host : String
  path : String
  query : List (String × String)
  headers : List (String × String)
  contentLength : Int
  body : String
  deriving DecidableEq, Repr

structure HttpResponse where
  statusCode : Nat
  headers : List (String × String)
  body : String
  deriving DecidableEq, Repr

-- http.DefaultClient.Do: either a transport-level error or a response.
def Transport : Type := HttpRequest → Except String HttpResponse

def headerGet (hs : List (String × String)) (k : String) : String :=
  match hs.find? (fun p => p.1 == k) with
  | some p => p.2
  | none => ""

def headerSet (hs : List (String × String)) (k v : String) :
    List (String × String) :=
  (k, v) :: hs.filter (fun p => p.1 != k)

-- ioutil.ReadAll on a response body: yields the remaining bytes and leaves
-- the reader exhausted (a second ReadAll returns the empty string).
def readAll (resp : HttpResponse) : String × HttpResponse :=
  (resp.body, { resp with body := "" })

/-! ### Error values -/

inductive GoErr where
  | errorf (msg : String)
  | s3Error (code : Nat) (shouldRetry : Bool) (body : String)
  | transportErr (msg : String)
  | ioErr (msg : String)
  | xmlErr (msg : String)
  deriving DecidableEq, Repr

-- error.go wrapError: reads the (possibly already consumed) response body.
def wrapError (resp : HttpResponse) : GoErr :=
  let (bodyBytes, _) := readAll resp
  .s3Error resp.statusCode (resp.statusCode == 500) bodyBytes

/-! ### Credentials and the request signer -/

structure S3 where
  bucket : String
  accessId : String
  secret : String
  deriving DecidableEq, Repr

def s3Host (s3 : S3) : String := s3.bucket ++ ".s3.amazonaws.com"

-- url.Values lookup on the parsed query: all values for a key, in order.
def queryValues (q : List (String × String)) (k : String) : List String :=
  (q.filter (fun p => p.1 == k)).map Prod.snd

def pairKeyLe (a b : String × String) : Prop := goStrLe a.1 b.1

instance : DecidableRel pairKeyLe := fun a b =>
  inferInstanceAs (Decidable (goStrLe a.1 b.1))

-- url.Values.Encode sorts by key; a request built from resource(path, values)
-- therefore carries its query pairs in sorted-key order.
def valuesEncodeOrder (q : List (String × String)) : List (String × String) :=
  List.insertionSort pairKeyLe q

-- strings.TrimSpace (the methods signed here are ASCII, so trimming the
-- ASCII space characters is exact).
def isSpaceChar (c : Char) : Bool := c == ' ' || c == '\t' || c == '\n' || c == '\r'

def trimSpace (s : String) : String :=
  String.mk (((s.data.dropWhile isSpaceChar).reverse.dropWhile isSpaceChar).reverse)

-- The canonical query: sort the (distinct) keys, then for each key emit all
-- its values in order, an empty value as the bare escaped key.
def canonicalQueryParts (q : List (String × String)) : List String :=
  let keys := List.insertionSort goStrLe (q.map Prod.fst).dedup
  keys.flatMap (fun key =>
    (queryValues q key).map (fun val =>
      if val = "" then queryEscape key
      else queryEscape key ++ "=" ++ queryEscape val))

-- signRequest; the Date header defaults to the current time, passed here as
-- the pure argument now.
def signRequest (s3 : S3) (now : String) (req : HttpRequest) : HttpRequest :=
  let amzHeaders := ""
  let rawQuery :=
    if 0 < req.query.length then
      String.intercalate "&" (canonicalQueryParts req.query)
    else ""
  let resource0 := "/" ++ s3.bucket ++ req.path
  let resource := if rawQuery ≠ "" then resource0 ++ "?" ++ rawQuery else resource0
  let headers :=
    if headerGet req.headers "Date" = "" then headerSet req.headers "Date" now
    else req.headers
  let authStr := String.intercalate "\n"
    [trimSpace req.method, headerGet headers "Content-MD5",
     headerGet headers "Content-Type", headerGet headers "Date",
     amzHeaders ++ resource]
  let h64 := base64Encode (hmacSha1 (strBytes s3.secret) (strBytes authStr))
  let auth := "AWS" ++ " " ++ s3.accessId ++ ":" ++ h64
  { req with headers := headerSet headers "Authorization" auth }

/-! ### The multipart coordinator -/

-- The lock is omitted: it serialises the methods, so the sequential
-- semantics modelled here is the observable one.  The s3 field is passed
-- explicitly to each method.
structure S3Multipart where
  etags : List String
  uploadId : String
  key : String
  completed : Bool
  deriving DecidableEq, Repr

structure S3MultipartResp where
  xmlName : String
  bucket : String
  key : String
  uploadId : String
  deriving DecidableEq, Repr

-- The part-upload request built by AddPart (resource(key, values) with
-- uploadId and partNumber, the optional Content-MD5, Content-Length, Host,
-- Content-Type headers, then signRequest).  The chunk bytes travel in the
-- reader r, which the signature never inspects; the body field stays empty.
def addPartRequest (s3 : S3) (mp : S3Multipart) (size : Int)
    (md5sum : Option (List Nat)) (now : String) : HttpRequest :=
  let values := [("uploadId", mp.uploadId),
                 ("partNumber", toString (mp.etags.length + 1))]
  let req : HttpRequest :=
    { method := "PUT", host := s3Host s3, path := "/" ++ mp.key,
      query := valuesEncodeOrder values, headers := [], contentLength := 0,
      body := "" }
  let req := match md5sum with
    | some m => { req with headers := headerSet req.headers "Content-MD5" (base64Encode m) }
    | none => req
  let req := { req with headers := headerSet req.headers "Content-Length" (toString size) }
  let req := { req with headers := headerSet req.headers "Host" req.host }
  let req := { req with headers := headerSet req.headers "Content-Type" "application/octet-stream" }
  let req := { req with contentLength := size }
  signRequest s3 now req

def AddPart (s3 : S3) (mp : S3Multipart) (size : Int)
    (md5sum : Option (List Nat)) (now : String) (tr : Transport) :
    Except GoErr Unit × S3Multipart × List HttpRequest :=
  if mp.completed then
    (.error (.errorf "s3: cannot call AddPart on an aborted multipart request"), mp, [])
  else
    let req := addPartRequest s3 mp size md5sum now
    match tr req with
    | .error e => (.error (.transportErr e), mp, [req])
    | .ok resp =>
      let (body, _) := readAll resp
      if resp.statusCode ≠ 200 then
        (.error (.errorf ("s3: AddPart returned an error (HTTP " ++
          toString resp.statusCode ++ ")\n" ++ body)), mp, [req])
      else
        (.ok (), { mp with etags := mp.etags ++ [headerGet resp.headers "ETag"] },
         [req])

-- The manifest body: for idx, etag := range mp.etags, using idx+1 as the
-- part number.
def partsXml : List String → Nat → String
  | [], _ => ""
  | etag :: rest, idx =>
    "<Part><PartNumber>" ++ toString (idx + 1) ++ "</PartNumber><ETag>" ++
      etag ++ "</ETag></Part>" ++ partsXml rest (idx + 1)

def completeXmlBody (etags : List String) : String :=
  "<CompleteMultipartUpload>" ++ partsXml etags 0 ++ "</CompleteMultipartUpload>"

def completeRequest (s3 : S3) (mp : S3Multipart) (contentType now : String) :
    HttpRequest :=
  let xmlBody := completeXmlBody mp.etags
  let values := [("uploadId", mp.uploadId)]
  let req : HttpRequest :=
    { method := "POST", host := s3Host s3, path := "/" ++ mp.key,
      query := valuesEncodeOrder values, headers := [], contentLength := 0,
      body := xmlBody }
  let req := { req with headers := headerSet req.headers "Content-Length" (toString (strBytes xmlBody).length) }
  let req := { req with headers := headerSet req.headers "Host" req.host }
  let req := { req with headers := headerSet req.headers "Content-Type" contentType }
  let req := { req with contentLength := (strBytes xmlBody).length }
  signRequest s3 now req

def Complete (s3 : S3) (mp : S3Multipart) (contentType now : String)
    (tr : Transport) : Except GoErr Unit × S3Multipart × List HttpRequest :=
  if mp.completed then
    (.error (.errorf "s3: cannot call Complete on an aborted multipart request"), mp, [])
  else
    let contentType := if contentType = "" then "application/octet-stream" else contentType
    let req := completeRequest s3 mp contentType now
    match tr req with
    | .error e => (.error (.transportErr e), mp, [req])
    | .ok resp =>
      if resp.statusCode ≠ 200 then
        (.error (.errorf ("s3: Complete returned an error (HTTP " ++
          toString resp.statusCode ++ ")")), mp, [req])
      else
        -- the source returns nil here without updating mp.completed
        (.ok (), mp, [req])

-- The delete request built by Abort: http.NewRequest("DELETE", ...) only;
-- the source sets no headers on it and does not call signRequest.
def abortRequest (s3 : S3) (mp : S3Multipart) : HttpRequest :=
  let values := [("uploadId", mp.uploadId)]
  { method := "DELETE", host := s3Host s3, path := "/" ++ mp.key,
    query := valuesEncodeOrder values, headers := [], contentLength := 0,
    body := "" }

def Abort (s3 : S3) (mp : S3Multipart) (tr : Transport) :
    Except GoErr Unit × S3Multipart × List HttpRequest :=
  if mp.completed then
    (.error (.errorf "s3: cannot call Abort on an aborted multipart request"), mp, [])
  else
    let req := abortRequest s3 mp
    match tr req with
    | .error e => (.error (.transportErr e), mp, [req])
    | .ok resp =>
      if resp.statusCode ≠ 200 then
        (.error (.errorf ("s3: Abort returned an error (HTTP " ++
          toString resp.statusCode ++ ")")), mp, [req])
      else
        (.ok (), { mp with completed := true }, [req])

/-! ### StartMultipart -/

def startMultipartRequest (s3 : S3) (path now : String) : HttpRequest :=
  let req : HttpRequest :=
    { method := "POST", host := s3Host s3, path := "/" ++ path,
      query := [("uploads", "")], headers := [], contentLength := 0, body := "" }
  let req := { req with headers := headerSet req.headers "Host" req.host }
  signRequest s3 now req

-- xmlUnmarshal stands for encoding/xml parsing of the initiation response
-- (library code outside this repository).
def StartMultipart (s3 : S3) (path now : String)
    (xmlUnmarshal : String → Except String S3MultipartResp) (tr : Transport) :
    Except GoErr S3Multipart × List HttpRequest :=
  let req := startMultipartRequest s3 path now
  match tr req with
  | .error e => (.error (.transportErr e), [req])
  | .ok resp =>
    let (xmlBytes, resp1) := readAll resp
    if resp.statusCode ≠ 200 then
      (.error (wrapError resp1), [req])
    else
      match xmlUnmarshal xmlBytes with
      | .error e => (.error (.xmlErr e), [req])
      | .ok xr =>
        (.ok { etags := [], uploadId := xr.uploadId, key := xr.key,
               completed := false }, [req])

/-! ### The chunking driver (putMultipart) and Put

The loop (for ; remaining > 0; remaining -= chunkSize) shrinks chunkSize to
remaining on the final chunk.  The positivity proof argument records that
the source runs the loop only with the constant 7 MiB chunk size, which
keeps the loop terminating. -/

-- Positivity of the 7 MiB chunk size, named so that every use of the
-- driver loop shares one proof term.
def hC7 : (0 : Int) < 7 * 1024 * 1024 := by norm_num

-- The successive chunk byte counts produced by the loop.
def putMultipartChunks (chunkSize remaining : Int) (hC : 0 < chunkSize) :
    List Int :=
  if h : 0 < remaining then
    have hc : 0 < (if remaining < chunkSize then remaining else chunkSize) := by
      split <;> omega
    have hlt : (remaining - (if remaining < chunkSize then remaining else chunkSize)).toNat
        < remaining.toNat := by
      split <;> omega
    (if remaining < chunkSize then remaining else chunkSize) ::
      putMultipartChunks (if remaining < chunkSize then remaining else chunkSize)
        (remaining - (if remaining < chunkSize then remaining else chunkSize)) hc
  else []
termination_by remaining.toNat
decreasing_by exact hlt

-- The same chunk computation over Nat, for arithmetic reasoning.
def natChunks (chunkSize remaining : Nat) (hC : 0 < chunkSize) : List Nat :=
  if h : 0 < remaining then
    have hc : 0 < (if remaining < chunkSize then remaining else chunkSize) := by
      split <;> omega
    have hlt : remaining - (if remaining < chunkSize then remaining else chunkSize)
        < remaining := by
      split <;> omega
    (if remaining < chunkSize then remaining else chunkSize) ::
      natChunks (if remaining < chunkSize then remaining else chunkSize)
        (remaining - (if remaining < chunkSize then remaining else chunkSize)) hc
  else []
termination_by remaining
decreasing_by exact hlt

/- One loop iteration of putMultipart: reset the buffer and hash, shrink
chunkSize if needed, read exactly chunkSize bytes (io.CopyN), then AddPart
with the chunk's md5 sum.  The read outcomes, per-chunk md5 sums and
per-chunk transport responses are scripted by the functions reads, md5s,
partResps, indexed by the chunk index. -/
def putMultipartLoop (s3 : S3) (mp : S3Multipart) (chunkSize remaining : Int)
    (hC : 0 < chunkSize) (idx : Nat) (reads : Nat → Option String)
    (md5s : Nat → List Nat) (partResps : Nat → Except String HttpResponse)
    (now : String) : Except GoErr Unit × S3Multipart × List HttpRequest :=
  if h : 0 < remaining then
    have hc : 0 < (if remaining < chunkSize then remaining else chunkSize) := by
      split <;> omega
    have hlt : (remaining - (if remaining < chunkSize then remaining else chunkSize)).toNat
        < remaining.toNat := by
      split <;> omega
    let c := if remaining < chunkSize then remaining else chunkSize
    match reads idx with
    | some e => (.error (.ioErr e), mp, [])
    | none =>
      match AddPart s3 mp c (some (md5s idx)) now (fun _ => partResps idx) with
      | (.error e, mp1, reqs) => (.error e, mp1, reqs)
      | (.ok _, mp1, reqs) =>
        let rest := putMultipartLoop s3 mp1 c (remaining - c) hc (idx + 1)
          reads md5s partResps now
        (rest.1, rest.2.1, reqs ++ rest.2.2)
  else (.ok (), mp, [])
termination_by remaining.toNat
decreasing_by exact hlt

-- The scripted world a whole-stream upload runs against.
structure MpScript where
  xmlUnmarshal : String → Except String S3MultipartResp
  startResp : Except String HttpResponse
  reads : Nat → Option String
  md5s : Nat → List Nat
  partResps : Nat → Except String HttpResponse
  completeResp : Except String HttpResponse
  abortResp : Except String HttpResponse

def putMultipart (s3 : S3) (size : Int) (path contentType now : String)
    (sc : MpScript) : Except GoErr Unit × List HttpRequest :=
  match StartMultipart s3 path now sc.xmlUnmarshal (fun _ => sc.startResp) with
  | (.error e, reqs0) => (.error e, reqs0)
  | (.ok mp, reqs0) =>
    match putMultipartLoop s3 mp (7 * 1024 * 1024) size hC7 0
        sc.reads sc.md5s sc.partResps now with
    | (.error e, mp1, reqs1) =>
      -- the deferred func fires: er != nil, so mp.Abort() runs and its own
      -- result is discarded
      let ab := Abort s3 mp1 (fun _ => sc.abortResp)
      (.error e, reqs0 ++ reqs1 ++ ab.2.2)
    | (.ok _, mp1, reqs1) =>
      match Complete s3 mp1 contentType now (fun _ => sc.completeResp) with
      | (.error e, mp2, reqs2) =>
        let ab := Abort s3 mp2 (fun _ => sc.abortResp)
        (.error e, reqs0 ++ reqs1 ++ reqs2 ++ ab.2.2)
      | (.ok _, _, reqs2) => (.ok (), reqs0 ++ reqs1 ++ reqs2)

-- The single-shot PUT request (the small-object branch of Put).
def putRequest (s3 : S3) (size : Int) (path : String)
    (md5sum : Option (List Nat)) (contentType now : String) : HttpRequest :=
  let req : HttpRequest :=
    { method := "PUT", host := s3Host s3, path := "/" ++ path, query := [],
      headers := [], contentLength := 0, body := "" }
  let req := match md5sum with
    | some m => { req with headers := headerSet req.headers "Content-MD5" (base64Encode m) }
    | none => req
  let contentType := if contentType = "" then "application/octet-stream" else contentType
  let req := { req with headers := headerSet req.headers "Content-Type" contentType }
  let req := { req with headers := headerSet req.headers "Content-Length" (toString size) }
  let req := { req with headers := headerSet req.headers "Host" req.host }
  let req := { req with contentLength := size }
  signRequest s3 now req

def Put (s3 : S3) (size : Int) (path : String) (md5sum : Option (List Nat))
    (contentType now : String) (tr : Transport) (sc : MpScript) :
    Except GoErr Unit × List HttpRequest :=
  if 3 * 1024 * 1024 * 1024 < size then
    putMultipart s3 size path contentType now sc
  else
    let req := putRequest s3 size path md5sum contentType now
    match tr req with
    | .error e => (.error (.transportErr e), [req])
    | .ok resp =>
      if resp.statusCode ≠ 200 then (.error (wrapError resp), [req])
      else (.ok (), [req])

/-! ### Scripted runs of AddPart and the manifest description -/

-- A sequence of AddPart calls against one session, each with its size,
-- optional md5 sum, and the transport outcome of its upload request.
def runAddParts (s3 : S3) (now : String) :
    S3Multipart → List (Int × Option (List Nat) × Except String HttpResponse) →
    S3Multipart
  | mp, [] => mp
  | mp, (sz, md, r) :: rest =>
    runAddParts s3 now (AddPart s3 mp sz md now (fun _ => r)).2.1 rest

-- The ETags of the calls that succeed (transport ok with HTTP 200), in order.
def successEtags :
    List (Int × Option (List Nat) × Except String HttpResponse) → List String
  | [] => []
  | (_, _, Except.ok r) :: rest =>
    if r.statusCode = 200 then headerGet r.headers "ETag" :: successEtags rest
    else successEtags rest
  | (_, _, Except.error _) :: rest => successEtags rest

-- Spec-side description of the manifest: the (partNumber, tag) pairs.
def renderPart (p : Nat × String) : String :=
  "<Part><PartNumber>" ++ toString p.1 ++ "</PartNumber><ETag>" ++ p.2 ++
    "</ETag></Part>"

def manifestEntries (etags : List String) : List (Nat × String) :=
  etags.enum.map (fun p => (p.1 + 1, p.2))

/-! ### Concrete fixtures for witnesses and counterexamples -/

def s3Fix : S3 := { bucket := "b", accessId := "i", secret := "k" }

def okTransport : Transport :=
  fun _ => .ok { statusCode := 200, headers := [("ETag", "tag-ok")], body := "" }

def resp500 : HttpResponse := { statusCode := 500, headers := [], body := "err" }

def tr500 : Transport := fun _ => .ok resp500

def mpOpenFix : S3Multipart :=
  { etags := ["t1"], uploadId := "u", key := "k", completed := false }

def mpDoneFix : S3Multipart :=
  { etags := ["t1"], uploadId := "u", key := "k", completed := true }

def scFix : MpScript :=
  { xmlUnmarshal := fun _ =>
      .ok { xmlName := "", bucket := "b", key := "k", uploadId := "u" },
    startResp := .ok { statusCode := 200, headers := [], body := "x" },
    reads := fun _ => none,
    md5s := fun _ => [],
    partResps := fun _ =>
      .ok { statusCode := 200, headers := [("ETag", "t")], body := "" },
    completeResp := .ok { statusCode := 200, headers := [], body := "" },
    abortResp := .ok { statusCode := 200, headers := [], body := "" } }

-- A failing whole-stream script: the first read of the source errors.
def scReadFail : MpScript := { scFix with reads := fun _ => some "boom" }

def mpFresh : S3Multipart :=
  { etags := [], uploadId := "u", key := "k", completed := false }

def inputsFix : List (Int × Option (List Nat) × Except String HttpResponse) :=
  [(5, none, .ok { statusCode := 200, headers := [("ETag", "t1")], body := "" }),
   (5, none, .ok resp500),
   (5, none, .error "conn"),
   (5, none, .ok { statusCode := 200, headers := [("ETag", "t2")], body := "" })]

def reqBase : HttpRequest :=
  { method := "GET", host := "b.s3.amazonaws.com", path := "/p", query := [],
    headers := [("Date", "D")], contentLength := 0, body := "" }

-- Same key twice, values in the two insertion orders: equal as multisets.
def qA : List (String × String) := [("a", "1"), ("a", "2")]

def qB : List (String × String) := [("a", "2"), ("a", "1")]

-- Distinct keys, two insertion orders.
def qC : List (String × String) := [("b", "2"), ("a", "1")]

def qD : List (String × String) := [("a", "1"), ("b", "2")]

/-! ### Header lemmas -/

theorem headerGet_headerSet_same (hs : List (String × String)) (k v : String) :
    headerGet (headerSet hs k v) k = v := by
  unfold headerGet headerSet
  rw [List.find?_cons_of_pos _ (by simp)]

theorem find_key_filter (hs : List (String × String)) (k k' : String)
    (h : k' ≠ k) :
    (hs.filter (fun p => p.1 != k)).find? (fun p => p.1 == k') =
      hs.find? (fun p => p.1 == k') := by
  induction hs with
  | nil => rfl
  | cons p rest ih =>
    by_cases hp : p.1 = k
    · have h1 : (p.1 != k) = false := by simp [hp]
      have h2 : (p.1 == k') = false := by simp [hp, Ne.symm h]
      simp [List.filter_cons, h1, List.find?_cons, h2, ih]
    · have h1 : (p.1 != k) = true := by simp [hp]
      by_cases hk' : p.1 = k'
      · simp [List.filter_cons, h1, List.find?_cons, hk', h]
      · have h2 : (p.1 == k') = false := by simp [hk']
        simp [List.filter_cons, h1, List.find?_cons, h2, ih]

theorem headerGet_headerSet_ne (hs : List (String × String)) (k v k' : String)
    (h : k' ≠ k) : headerGet (headerSet hs k v) k' = headerGet hs k' := by
  unfold headerGet headerSet
  rw [List.find?_cons_of_neg _ (by simp [Ne.symm h]), find_key_filter hs k k' h]

theorem signRequest_authorization_ne (s3 : S3) (now : String)
    (req : HttpRequest) :
    headerGet (signRequest s3 now req).headers "Authorization" ≠ "" := by
  simp only [signRequest]
  rw [headerGet_headerSet_same]
  intro hcontra
  have hlen := congrArg String.length hcontra
  simp only [String.length_append] at hlen
  rw [show ("AWS" : String).length = 3 from rfl,
      show (" " : String).length = 1 from rfl,
      show (":" : String).length = 1 from rfl,
      show ("" : String).length = 0 from rfl] at hlen
  omega

/-! ### Claim C2 -/

/-- Claim C2: on a session in the Finalized state each of the mutating
operations AddPart, Complete and Abort returns its dedicated
already-finalized error, issues no network request, and leaves the session
(recorded parts and state) unchanged. -/
theorem C2_finalized_mutators_noop (s3 : S3) (mp : S3Multipart)
    (h : mp.completed = true) (size : Int) (md5sum : Option (List Nat))
    (contentType now : String) (tr : Transport) :
    AddPart s3 mp size md5sum now tr =
      (.error (.errorf "s3: cannot call AddPart on an aborted multipart request"),
       mp, []) ∧
    Complete s3 mp contentType now tr =
      (.error (.errorf "s3: cannot call Complete on an aborted multipart request"),
       mp, []) ∧
    Abort s3 mp tr =
      (.error (.errorf "s3: cannot call Abort on an aborted multipart request"),
       mp, []) := by
  refine ⟨?_, ?_, ?_⟩ <;> simp [AddPart, Complete, Abort, h]

/-- Witness for C2 at a concrete finalized session. -/
theorem C2_finalized_mutators_noop_witness :
    mpDoneFix.completed = true ∧
    AddPart s3Fix mpDoneFix 5 none "D" okTransport =
      (.error (.errorf "s3: cannot call AddPart on an aborted multipart request"),
       mpDoneFix, []) ∧
    Complete s3Fix mpDoneFix "ct" "D" okTransport =
      (.error (.errorf "s3: cannot call Complete on an aborted multipart request"),
       mpDoneFix, []) ∧
    Abort s3Fix mpDoneFix okTransport =
      (.error (.errorf "s3: cannot call Abort on an aborted multipart request"),
       mpDoneFix, []) :=
  ⟨rfl, C2_finalized_mutators_noop s3Fix mpDoneFix rfl 5 none "ct" "D" okTransport⟩

/-! ### Claim C1 -/

/-- Claim C1 (evaluation at the failing input): a successful Complete does
not move the session out of Open: the completed flag stays false, and both
AddPart and Abort still succeed afterwards.  This contradicts the claim
that a successful Complete transitions the session to the terminal
Finalized state. -/
theorem C1_complete_leaves_session_open :
    (Complete s3Fix mpOpenFix "" "D" okTransport).1 = .ok () ∧
    (Complete s3Fix mpOpenFix "" "D" okTransport).2.1 = mpOpenFix ∧
    mpOpenFix.completed = false ∧
    (AddPart s3Fix (Complete s3Fix mpOpenFix "" "D" okTransport).2.1 5 none "D"
      okTransport).1 = .ok () ∧
    (Abort s3Fix (Complete s3Fix mpOpenFix "" "D" okTransport).2.1
      okTransport).1 = .ok () :=
  ⟨rfl, rfl, rfl, rfl, rfl⟩

/-! ### Claim C5 -/

/-- Claim C5 (evaluation at the failing input): the request Abort sends is a
bare DELETE scoped by uploadId with an empty header list: no Authorization
header is present, because the source never calls signRequest in Abort,
while every signed request carries a non-empty Authorization value.  This
contradicts the claim that Abort's request is signed like the others. -/
theorem C5_abort_request_unsigned :
    (Abort s3Fix mpOpenFix okTransport).1 = .ok () ∧
    (Abort s3Fix mpOpenFix okTransport).2.1.completed = true ∧
    (Abort s3Fix mpOpenFix okTransport).2.2 = [abortRequest s3Fix mpOpenFix] ∧
    (abortRequest s3Fix mpOpenFix).method = "DELETE" ∧
    (abortRequest s3Fix mpOpenFix).query = [("uploadId", "u")] ∧
    (abortRequest s3Fix mpOpenFix).headers = [] ∧
    headerGet (abortRequest s3Fix mpOpenFix).headers "Authorization" = "" ∧
    (∀ (s : S3) (now : String) (req : HttpRequest),
      headerGet (signRequest s now req).headers "Authorization" ≠ "") :=
  ⟨rfl, rfl, rfl, rfl, rfl, rfl, rfl, signRequest_authorization_ne⟩

/-! ### Claim C6 -/

/-- Claim C6 (evaluation at the failing input): when the store answers the
initiation request with HTTP 500 and body "err", StartMultipart returns the
typed store error with an empty body, because the response body was already
consumed by the earlier ReadAll before wrapError ran.  This contradicts the
claim that the error response's body is preserved for the caller. -/
theorem C6_start_error_body_dropped :
    (StartMultipart s3Fix "p" "D" scFix.xmlUnmarshal (fun _ => .ok resp500)).1 =
      .error (.s3Error 500 true "") ∧
    resp500.body = "err" ∧ ("" : String) ≠ "err" :=
  ⟨rfl, rfl, by decide⟩

/-! ### Claim C10 -/

/-- Claim C10: when size exceeds the 3 GiB threshold, Put dispatches to the
multipart path, which never consults the md5sum argument, so two Put calls
differing only in md5sum issue the same requests and return the same
result. -/
theorem C10_put_md5sum_irrelevant_over_threshold (s3 : S3) (size : Int)
    (h : 3 * 1024 * 1024 * 1024 < size) (path : String)
    (m1 m2 : Option (List Nat)) (contentType now : String) (tr : Transport)
    (sc : MpScript) :
    Put s3 size path m1 contentType now tr sc =
      Put s3 size path m2 contentType now tr sc := by
  simp only [Put, if_pos h]

/-- Witness for C10 just above the threshold. -/
theorem C10_put_md5sum_irrelevant_over_threshold_witness :
    (3 * 1024 * 1024 * 1024 : Int) < 3 * 1024 * 1024 * 1024 + 1 ∧
    Put s3Fix (3 * 1024 * 1024 * 1024 + 1) "p" (some [1, 2]) "ct" "D"
        okTransport scFix =
      Put s3Fix (3 * 1024 * 1024 * 1024 + 1) "p" none "ct" "D"
        okTransport scFix :=
  ⟨by decide,
   C10_put_md5sum_irrelevant_over_threshold s3Fix (3 * 1024 * 1024 * 1024 + 1)
     (by decide) "p" (some [1, 2]) none "ct" "D" okTransport scFix⟩

/-! ### Claim C4 -/

/-- Claim C4: an AddPart on an Open session whose upload request comes back
with a non-success HTTP status returns the store-derived error and leaves
the session's recorded parts and Open state unchanged; since the part
number of an upload request is always one plus the count of recorded parts,
a retry reissues the same part number. -/
theorem C4_addpart_store_error_no_mutation (s3 : S3) (mp : S3Multipart)
    (hopen : mp.completed = false) (size : Int) (md5sum : Option (List Nat))
    (now : String) (tr : Transport) (resp : HttpResponse)
    (hresp : tr (addPartRequest s3 mp size md5sum now) = .ok resp)
    (hstatus : resp.statusCode ≠ 200) :
    AddPart s3 mp size md5sum now tr =
      (.error (.errorf ("s3: AddPart returned an error (HTTP " ++
        toString resp.statusCode ++ ")\n" ++ resp.body)), mp,
       [addPartRequest s3 mp size md5sum now]) ∧
    (addPartRequest s3 mp size md5sum now).query =
      [("partNumber", toString (mp.etags.length + 1)),
       ("uploadId", mp.uploadId)] := by
  constructor
  · simp [AddPart, hopen, hresp, readAll, hstatus]
  · cases md5sum <;> rfl

/-- Witness for C4 at a concrete 500 response. -/
theorem C4_addpart_store_error_no_mutation_witness :
    mpOpenFix.completed = false ∧
    tr500 (addPartRequest s3Fix mpOpenFix 5 none "D") = .ok resp500 ∧
    resp500.statusCode ≠ 200 ∧
    AddPart s3Fix mpOpenFix 5 none "D" tr500 =
      (.error (.errorf ("s3: AddPart returned an error (HTTP " ++
        toString resp500.statusCode ++ ")\n" ++ resp500.body)), mpOpenFix,
       [addPartRequest s3Fix mpOpenFix 5 none "D"]) :=
  ⟨rfl, rfl, by decide,
   (C4_addpart_store_error_no_mutation s3Fix mpOpenFix rfl 5 none "D" tr500
     resp500 rfl (by decide)).1⟩

/-! ### Claim C3 -/

theorem AddPart_scripted_state (s3 : S3) (mp : S3Multipart) (sz : Int)
    (md : Option (List Nat)) (now : String) (r : Except String HttpResponse)
    (hmp : mp.completed = false) :
    (AddPart s3 mp sz md now (fun _ => r)).2.1 =
      match r with
      | .ok resp =>
        if resp.statusCode = 200 then
          { mp with etags := mp.etags ++ [headerGet resp.headers "ETag"] }
        else mp
      | .error _ => mp := by
  cases r with
  | error e => simp [AddPart, hmp]
  | ok resp => by_cases h : resp.statusCode = 200 <;> simp [AddPart, hmp, readAll, h]

theorem runAddParts_spec (s3 : S3) (now : String)
    (inputs : List (Int × Option (List Nat) × Except String HttpResponse)) :
    ∀ mp : S3Multipart, mp.completed = false →
      (runAddParts s3 now mp inputs).etags = mp.etags ++ successEtags inputs ∧
      (runAddParts s3 now mp inputs).completed = false := by
  induction inputs with
  | nil => intro mp hmp; simp [runAddParts, successEtags, hmp]
  | cons hd tl ih =>
    intro mp hmp
    obtain ⟨sz, md, r⟩ := hd
    have hstate := AddPart_scripted_state s3 mp sz md now r hmp
    cases r with
    | error e =>
      simp only [runAddParts]
      rw [hstate]
      simpa [successEtags] using ih mp hmp
    | ok resp =>
      have hstate' : (AddPart s3 mp sz md now fun _ => Except.ok resp).2.1 =
          if resp.statusCode = 200 then
            { mp with etags := mp.etags ++ [headerGet resp.headers "ETag"] }
          else mp := hstate
      by_cases hs : resp.statusCode = 200
      · simp only [runAddParts]
        rw [hstate', if_pos hs]
        obtain ⟨h1, h2⟩ := ih { mp with etags := mp.etags ++ [headerGet resp.headers "ETag"] } (by simpa using hmp)
        constructor
        · rw [h1]; simp [successEtags, hs, List.append_assoc]
        · exact h2
      · simp only [runAddParts]
        rw [hstate', if_neg hs]
        obtain ⟨h1, h2⟩ := ih mp hmp
        constructor
        · rw [h1]; simp [successEtags, hs]
        · exact h2

theorem partsXml_enumFrom (l : List String) :
    ∀ k : Nat, partsXml l k =
      ((List.enumFrom k l).map (fun p => (p.1 + 1, p.2))).foldr
        (fun p acc => renderPart p ++ acc) "" := by
  induction l with
  | nil => intro k; rfl
  | cons x rest ih =>
    intro k
    simp only [partsXml, List.enumFrom, List.map, List.foldr]
    rw [ih (k + 1)]
    rfl

theorem enumFrom_partNumbers (l : List String) :
    ∀ k : Nat, (((List.enumFrom k l).map (fun p => (p.1 + 1, p.2))).map Prod.fst) =
      List.range' (k + 1) l.length := by
  induction l with
  | nil => intro k; rfl
  | cons x rest ih =>
    intro k
    simp only [List.enumFrom, List.map, List.length_cons, List.range']
    rw [ih (k + 1)]

/-- Claim C3: a fresh upload request always carries part number one plus the
count of recorded parts; after any interleaving of successful and failed
AddPart calls the recorded tags are exactly the tags of the successful
calls in order; and the manifest Complete builds lists exactly the pairs
(1, t1) ... (N, tN), with part numbers 1..N ascending, no gaps and no
reordering. -/
theorem C3_part_numbering_and_manifest (s3 : S3) (now : String)
    (mp : S3Multipart) (hmp : mp.completed = false) (sz : Int)
    (md : Option (List Nat))
    (inputs : List (Int × Option (List Nat) × Except String HttpResponse)) :
    (addPartRequest s3 mp sz md now).query =
      [("partNumber", toString (mp.etags.length + 1)),
       ("uploadId", mp.uploadId)] ∧
    (runAddParts s3 now mp inputs).etags = mp.etags ++ successEtags inputs ∧
    (runAddParts s3 now mp inputs).completed = false ∧
    completeXmlBody (runAddParts s3 now mp inputs).etags =
      "<CompleteMultipartUpload>" ++
        (manifestEntries (runAddParts s3 now mp inputs).etags).foldr
          (fun p acc => renderPart p ++ acc) "" ++
        "</CompleteMultipartUpload>" ∧
    (manifestEntries (runAddParts s3 now mp inputs).etags).map Prod.fst =
      List.range' 1 (runAddParts s3 now mp inputs).etags.length := by
  refine ⟨by cases md <;> rfl, (runAddParts_spec s3 now inputs mp hmp).1,
    (runAddParts_spec s3 now inputs mp hmp).2, ?_, ?_⟩
  · simp only [completeXmlBody, manifestEntries, List.enum]
    rw [partsXml_enumFrom]
  · simp only [manifestEntries, List.enum]
    rw [enumFrom_partNumbers]

/-- Witness for C3: a run with two successes interleaved with a store
failure and a transport failure records exactly the two successful tags. -/
theorem C3_part_numbering_and_manifest_witness :
    mpFresh.completed = false ∧
    (runAddParts s3Fix "D" mpFresh inputsFix).etags =
      mpFresh.etags ++ successEtags inputsFix ∧
    successEtags inputsFix = ["t1", "t2"] :=
  ⟨rfl,
   (C3_part_numbering_and_manifest s3Fix "D" mpFresh rfl 5 none inputsFix).2.1,
   rfl⟩

/-! ### Claim C7: chunk geometry of the driver loop -/

theorem putMultipartChunks_nonpos {cs r : Int} (h : ¬ 0 < r) :
    ∀ hC : 0 < cs, putMultipartChunks cs r hC = [] := by
  intro hC
  rw [putMultipartChunks]
  simp [h]

theorem putMultipartChunks_pos {cs r : Int} (h : 0 < r) :
    ∀ hC : 0 < cs,
      putMultipartChunks cs r hC =
        (if r < cs then r else cs) ::
          putMultipartChunks (if r < cs then r else cs)
            (r - (if r < cs then r else cs)) (by split <;> omega) := by
  intro hC
  rw [putMultipartChunks]
  simp [h]

theorem putMultipartLoop_nonpos (s3 : S3) (mp : S3Multipart) {cs r : Int}
    (idx : Nat) (reads : Nat → Option String) (md5s : Nat → List Nat)
    (partResps : Nat → Except String HttpResponse) (now : String)
    (h : ¬ 0 < r) :
    ∀ hC : 0 < cs,
      putMultipartLoop s3 mp cs r hC idx reads md5s partResps now =
        (.ok (), mp, []) := by
  intro hC
  rw [putMultipartLoop]
  simp [h]

theorem putMultipartLoop_pos (s3 : S3) (mp : S3Multipart) {cs r : Int}
    (idx : Nat) (reads : Nat → Option String) (md5s : Nat → List Nat)
    (partResps : Nat → Except String HttpResponse) (now : String)
    (h : 0 < r) :
    ∀ hC : 0 < cs,
      putMultipartLoop s3 mp cs r hC idx reads md5s partResps now =
        (match reads idx with
         | some e => (.error (.ioErr e), mp, [])
         | none =>
           match AddPart s3 mp (if r < cs then r else cs) (some (md5s idx)) now
               (fun _ => partResps idx) with
           | (.error e, mp1, reqs) => (.error e, mp1, reqs)
           | (.ok _, mp1, reqs) =>
             ((putMultipartLoop s3 mp1 (if r < cs then r else cs)
                 (r - (if r < cs then r else cs)) (by split <;> omega) (idx + 1)
                 reads md5s partResps now).1,
              (putMultipartLoop s3 mp1 (if r < cs then r else cs)
                 (r - (if r < cs then r else cs)) (by split <;> omega) (idx + 1)
                 reads md5s partResps now).2.1,
              reqs ++ (putMultipartLoop s3 mp1 (if r < cs then r else cs)
                 (r - (if r < cs then r else cs)) (by split <;> omega) (idx + 1)
                 reads md5s partResps now).2.2)) := by
  intro hC
  rw [putMultipartLoop]
  simp [h]

theorem addPartRequest_contentLength (s3 : S3) (mp : S3Multipart) (size : Int)
    (md5sum : Option (List Nat)) (now : String) :
    headerGet (addPartRequest s3 mp size md5sum now).headers "Content-Length" =
      toString size := by
  cases md5sum <;> rfl

theorem AddPart_ok (s3 : S3) (mp : S3Multipart) (sz : Int)
    (md : Option (List Nat)) (now : String) (resp : HttpResponse)
    (hmp : mp.completed = false) (hst : resp.statusCode = 200) :
    AddPart s3 mp sz md now (fun _ => .ok resp) =
      (.ok (), { mp with etags := mp.etags ++ [headerGet resp.headers "ETag"] },
       [addPartRequest s3 mp sz md now]) := by
  simp [AddPart, hmp, readAll, hst]

theorem AddPart_completed (s3 : S3) (mp : S3Multipart) (sz : Int)
    (md : Option (List Nat)) (now : String) (tr : Transport) :
    (AddPart s3 mp sz md now tr).2.1.completed = mp.completed := by
  by_cases hmp : mp.completed = true
  · simp [AddPart, hmp]
  · cases h : tr (addPartRequest s3 mp sz md now) with
    | error e => simp [AddPart, hmp, h]
    | ok resp =>
      by_cases hs : resp.statusCode = 200 <;>
        simp [AddPart, hmp, h, readAll, hs]

theorem putMultipartLoop_success (s3 : S3) (now : String)
    (reads : Nat → Option String) (md5s : Nat → List Nat)
    (partResps : Nat → Except String HttpResponse)
    (hreads : ∀ i, reads i = none)
    (hresps : ∀ i, ∃ resp, partResps i = .ok resp ∧ resp.statusCode = 200) :
    ∀ (n : Nat) (r cs : Int) (mp : S3Multipart) (idx : Nat), r.toNat ≤ n →
      mp.completed = false → ∀ hC : 0 < cs,
      (putMultipartLoop s3 mp cs r hC idx reads md5s partResps now).1 =
        .ok () ∧
      (putMultipartLoop s3 mp cs r hC idx reads md5s partResps now).2.1.completed =
        false ∧
      (putMultipartLoop s3 mp cs r hC idx reads md5s partResps now).2.2.map
        (fun q => headerGet q.headers "Content-Length") =
        (putMultipartChunks cs r hC).map (fun c => toString c) := by
  intro n
  induction n with
  | zero =>
    intro r cs mp idx hr hmp hC
    have h : ¬ 0 < r := by omega
    rw [putMultipartLoop_nonpos s3 mp idx reads md5s partResps now h,
        putMultipartChunks_nonpos h]
    simp [hmp]
  | succ n ih =>
    intro r cs mp idx hr hmp hC
    by_cases h : 0 < r
    · obtain ⟨resp, hresp, hst⟩ := hresps idx
      rw [putMultipartLoop_pos s3 mp idx reads md5s partResps now h,
          putMultipartChunks_pos h, hreads idx]
      simp only [hresp]
      rw [AddPart_ok s3 mp (if r < cs then r else cs) (some (md5s idx)) now
          resp hmp hst]
      have hcpos : (0 : Int) < (if r < cs then r else cs) := by split <;> omega
      have hcle : (if r < cs then r else cs) ≤ r := by split <;> omega
      obtain ⟨h1, h2, h3⟩ := ih (r - (if r < cs then r else cs))
        (if r < cs then r else cs)
        { mp with etags := mp.etags ++ [headerGet resp.headers "ETag"] }
        (idx + 1) (by omega) (by simpa using hmp) (by split <;> omega)
      refine ⟨h1, h2, ?_⟩
      simp only [List.map_cons, List.singleton_append]
      rw [addPartRequest_contentLength]
      exact congrArg (toString (if r < cs then r else cs) :: ·) h3
    · rw [putMultipartLoop_nonpos s3 mp idx reads md5s partResps now h,
          putMultipartChunks_nonpos h]
      simp [hmp]

theorem chunksSeven_closed :
    ∀ (n : Nat) (r : Int), r.toNat ≤ n → 0 < r →
      ∀ p : (0 : Int) < 7 * 1024 * 1024,
      (putMultipartChunks (7 * 1024 * 1024) r p).map Int.toNat =
        List.replicate ((r.toNat - 1) / 7340032) 7340032 ++
          [(r.toNat - 1) % 7340032 + 1] := by
  intro n
  induction n with
  | zero =>
    intro r hr h0 p
    exact absurd h0 (by omega)
  | succ n ih =>
    intro r hr h0 p
    rw [putMultipartChunks_pos h0]
    by_cases hrc : r < 7 * 1024 * 1024
    · simp only [if_pos hrc]
      rw [putMultipartChunks_nonpos (by omega)]
      simp only [List.map_cons, List.map_nil]
      have h1 : (r.toNat - 1) / 7340032 = 0 := by omega
      have h2 : (r.toNat - 1) % 7340032 + 1 = r.toNat := by omega
      rw [h1, h2]
      simp
    · simp only [if_neg hrc]
      by_cases hz : 0 < r - 7 * 1024 * 1024
      · simp only [List.map_cons]
        rw [ih (r - 7 * 1024 * 1024) (by omega) hz]
        have e1 : (r.toNat - 1) / 7340032 =
            ((r - 7 * 1024 * 1024).toNat - 1) / 7340032 + 1 := by omega
        have e2 : (r.toNat - 1) % 7340032 =
            ((r - 7 * 1024 * 1024).toNat - 1) % 7340032 := by omega
        rw [e1, e2, List.replicate_succ]
        simp
      · have hre : r = 7 * 1024 * 1024 := by omega
        rw [putMultipartChunks_nonpos (by omega)]
        subst hre
        simp only [List.map_cons, List.map_nil]
        decide

/-- Claim C7: with the 7 MiB chunk size and an all-success script, a
whole-stream upload of size bytes issues exactly ceil(size / C) AddPart
calls; the i-th reads exactly min(C, size - C*i) bytes and declares that
count as its Content-Length header; the final chunk's length is size mod C,
or C when C divides size. -/
theorem C7_whole_stream_chunking (s3 : S3) (now : String) (mp : S3Multipart)
    (hmp : mp.completed = false) (size : Int) (hs : 0 < size)
    (reads : Nat → Option String) (md5s : Nat → List Nat)
    (partResps : Nat → Except String HttpResponse)
    (hreads : ∀ i, reads i = none)
    (hresps : ∀ i, ∃ resp, partResps i = .ok resp ∧ resp.statusCode = 200) :
    (putMultipartLoop s3 mp (7 * 1024 * 1024) size hC7 0 reads md5s partResps
      now).1 = .ok () ∧
    (putMultipartLoop s3 mp (7 * 1024 * 1024) size hC7 0 reads md5s partResps
      now).2.2.length = (size.toNat + 7340032 - 1) / 7340032 ∧
    (putMultipartLoop s3 mp (7 * 1024 * 1024) size hC7 0 reads md5s partResps
      now).2.2.map (fun q => headerGet q.headers "Content-Length") =
      (putMultipartChunks (7 * 1024 * 1024) size hC7).map
        (fun c => toString c) ∧
    (∀ i : Nat, i < (putMultipartChunks (7 * 1024 * 1024) size hC7).length →
      ((putMultipartChunks (7 * 1024 * 1024) size hC7).map Int.toNat).getD i 0 =
        min 7340032 (size.toNat - 7340032 * i)) ∧
    ((putMultipartChunks (7 * 1024 * 1024) size hC7).map Int.toNat).getLast? =
      some (if size.toNat % 7340032 = 0 then 7340032
            else size.toNat % 7340032) := by
  obtain ⟨h1, h2, h3⟩ := putMultipartLoop_success s3 now reads md5s partResps
    hreads hresps size.toNat size (7 * 1024 * 1024) mp 0 le_rfl hmp hC7
  have hcf := chunksSeven_closed size.toNat size le_rfl hs hC7
  have hdm := Nat.div_add_mod (size.toNat - 1) 7340032
  have hmodlt : (size.toNat - 1) % 7340032 < 7340032 :=
    Nat.mod_lt _ (by norm_num)
  have hstn : 1 ≤ size.toNat := by omega
  have hlenN : ((putMultipartChunks (7 * 1024 * 1024) size hC7).map
      Int.toNat).length = (size.toNat - 1) / 7340032 + 1 := by
    rw [hcf]; simp
  have hlen : (putMultipartChunks (7 * 1024 * 1024) size hC7).length =
      (size.toNat - 1) / 7340032 + 1 := by
    simpa using hlenN
  refine ⟨h1, ?_, h3, ?_, ?_⟩
  · have hl3 := congrArg List.length h3
    simp only [List.length_map] at hl3
    rw [hl3, hlen]
    omega
  · intro i hi
    rw [hlen] at hi
    rw [hcf]
    by_cases hik : i < (size.toNat - 1) / 7340032
    · rw [List.getD_append _ _ _ _ (by simpa using hik)]
      rw [List.getD_eq_getElem?_getD, List.getElem?_replicate, if_pos hik]
      have : 7340032 ≤ size.toNat - 7340032 * i := by omega
      simp [Option.getD]
      omega
    · have hik' : i = (size.toNat - 1) / 7340032 := by omega
      subst hik'
      rw [List.getD_append_right _ _ _ _ (by simp)]
      simp only [List.length_replicate, Nat.sub_self, List.getD_cons_zero]
      omega
  · rw [hcf, List.getLast?_concat]
    by_cases hmod0 : size.toNat % 7340032 = 0 <;> simp [hmod0] <;> omega

/-- Witness for C7: a 10 MiB upload against an all-success script. -/
theorem C7_whole_stream_chunking_witness :
    mpFresh.completed = false ∧ (0 : Int) < 10485760 ∧
    (putMultipartLoop s3Fix mpFresh (7 * 1024 * 1024) 10485760 hC7 0
      (fun _ => none) (fun _ => [])
      (fun _ => .ok { statusCode := 200, headers := [("ETag", "t")], body := "" })
      "D").1 = .ok () :=
  ⟨rfl, by decide,
   (C7_whole_stream_chunking s3Fix "D" mpFresh rfl 10485760 (by decide)
     (fun _ => none) (fun _ => [])
     (fun _ => .ok { statusCode := 200, headers := [("ETag", "t")], body := "" })
     (fun _ => rfl) (fun _ => ⟨_, rfl, rfl⟩)).1⟩

/-! ### Claim C8: the driver's failure and success paths -/

theorem Abort_open_trace (s3 : S3) (mp : S3Multipart) (tr : Transport)
    (hmp : mp.completed = false) :
    (Abort s3 mp tr).2.2 = [abortRequest s3 mp] := by
  cases h : tr (abortRequest s3 mp) with
  | error e => simp [Abort, hmp, h]
  | ok resp => by_cases hs : resp.statusCode = 200 <;> simp [Abort, hmp, h, hs]

theorem Complete_open_spec (s3 : S3) (mp : S3Multipart) (ct now : String)
    (tr : Transport) (hmp : mp.completed = false) :
    (Complete s3 mp ct now tr).2.1 = mp ∧
    (Complete s3 mp ct now tr).2.2 =
      [completeRequest s3 mp
        (if ct = "" then "application/octet-stream" else ct) now] := by
  cases h : tr (completeRequest s3 mp
      (if ct = "" then "application/octet-stream" else ct) now) with
  | error e => simp [Complete, hmp, h]
  | ok resp => by_cases hs : resp.statusCode = 200 <;> simp [Complete, hmp, h, hs]

theorem Complete_ok (s3 : S3) (mp : S3Multipart) (ct now : String)
    (resp : HttpResponse) (hmp : mp.completed = false)
    (hst : resp.statusCode = 200) :
    Complete s3 mp ct now (fun _ => .ok resp) =
      (.ok (), mp,
       [completeRequest s3 mp
         (if ct = "" then "application/octet-stream" else ct) now]) := by
  simp [Complete, hmp, hst]

theorem completeRequest_contentType (s3 : S3) (mp : S3Multipart)
    (ct now : String) :
    headerGet (completeRequest s3 mp ct now).headers "Content-Type" = ct := rfl

theorem StartMultipart_ok (s3 : S3) (path now : String)
    (xmlU : String → Except String S3MultipartResp) (tr : Transport)
    (resp : HttpResponse) (hresp : tr (startMultipartRequest s3 path now) = .ok resp)
    (hst : resp.statusCode = 200) (xr : S3MultipartResp)
    (hxml : xmlU resp.body = .ok xr) :
    StartMultipart s3 path now xmlU tr =
      (.ok { etags := [], uploadId := xr.uploadId, key := xr.key,
             completed := false },
       [startMultipartRequest s3 path now]) := by
  simp [StartMultipart, hresp, readAll, hst, hxml]

theorem putMultipartLoop_completed (s3 : S3) (now : String)
    (reads : Nat → Option String) (md5s : Nat → List Nat)
    (partResps : Nat → Except String HttpResponse) :
    ∀ (n : Nat) (r cs : Int) (mp : S3Multipart) (idx : Nat), r.toNat ≤ n →
      ∀ hC : 0 < cs,
      (putMultipartLoop s3 mp cs r hC idx reads md5s partResps
        now).2.1.completed = mp.completed := by
  intro n
  induction n with
  | zero =>
    intro r cs mp idx hr hC
    rw [putMultipartLoop_nonpos s3 mp idx reads md5s partResps now (by omega)]
  | succ n ih =>
    intro r cs mp idx hr hC
    by_cases h : 0 < r
    · rw [putMultipartLoop_pos s3 mp idx reads md5s partResps now h]
      cases hrd : reads idx with
      | some e => rfl
      | none =>
        rcases hap : AddPart s3 mp (if r < cs then r else cs)
            (some (md5s idx)) now (fun _ => partResps idx) with ⟨res, mp1, reqs⟩
        have hmp1 : mp1.completed = mp.completed := by
          have hcompl := AddPart_completed s3 mp (if r < cs then r else cs)
            (some (md5s idx)) now (fun _ => partResps idx)
          rw [hap] at hcompl
          simpa using hcompl
        cases res with
        | error e => simpa using hmp1
        | ok u =>
          have hcpos : (0 : Int) < (if r < cs then r else cs) := by
            split <;> omega
          have hcle : (if r < cs then r else cs) ≤ r := by split <;> omega
          have hrec := ih (r - (if r < cs then r else cs))
            (if r < cs then r else cs) mp1 (idx + 1) (by omega)
            (by split <;> omega)
          simpa using hrec.trans hmp1
    · rw [putMultipartLoop_nonpos s3 mp idx reads md5s partResps now h]

/-- Claim C8: after a successful initiation, if some read or AddPart fails
the driver returns that original error and appends exactly the Abort
request to the trace, whatever Abort's own outcome; if every chunk
succeeds the driver calls Complete with the caller-supplied content type
(defaulted like the source when empty), and when Complete's response is
HTTP 200 the whole upload returns ok with no Abort issued. -/
theorem C8_driver_failure_abort_success_complete (s3 : S3) (size : Int)
    (path contentType now : String) (sc : MpScript) (startR : HttpResponse)
    (hstart : sc.startResp = .ok startR) (hst200 : startR.statusCode = 200)
    (xr : S3MultipartResp) (hxml : sc.xmlUnmarshal startR.body = .ok xr) :
    (∀ (e : GoErr) (mp1 : S3Multipart) (reqs1 : List HttpRequest),
      putMultipartLoop s3
          { etags := [], uploadId := xr.uploadId, key := xr.key,
            completed := false }
          (7 * 1024 * 1024) size hC7 0 sc.reads sc.md5s sc.partResps now =
        (.error e, mp1, reqs1) →
      putMultipart s3 size path contentType now sc =
        (.error e, [startMultipartRequest s3 path now] ++ reqs1 ++
          [abortRequest s3 mp1])) ∧
    (∀ (mp1 : S3Multipart) (reqs1 : List HttpRequest),
      putMultipartLoop s3
          { etags := [], uploadId := xr.uploadId, key := xr.key,
            completed := false }
          (7 * 1024 * 1024) size hC7 0 sc.reads sc.md5s sc.partResps now =
        (.ok (), mp1, reqs1) →
      headerGet (completeRequest s3 mp1
          (if contentType = "" then "application/octet-stream" else contentType)
          now).headers "Content-Type" =
        (if contentType = "" then "application/octet-stream" else contentType) ∧
      (∃ res tail,
        putMultipart s3 size path contentType now sc =
          (res, [startMultipartRequest s3 path now] ++ reqs1 ++
            completeRequest s3 mp1
              (if contentType = "" then "application/octet-stream" else contentType)
              now :: tail)) ∧
      (∀ cr : HttpResponse, sc.completeResp = .ok cr → cr.statusCode = 200 →
        putMultipart s3 size path contentType now sc =
          (.ok (), [startMultipartRequest s3 path now] ++ reqs1 ++
            [completeRequest s3 mp1
              (if contentType = "" then "application/octet-stream" else contentType)
              now]))) := by
  have hSM : StartMultipart s3 path now sc.xmlUnmarshal (fun _ => sc.startResp) =
      (.ok { etags := [], uploadId := xr.uploadId, key := xr.key,
             completed := false },
       [startMultipartRequest s3 path now]) :=
    StartMultipart_ok s3 path now sc.xmlUnmarshal (fun _ => sc.startResp)
      startR (by rw [hstart]) hst200 xr hxml
  constructor
  · intro e mp1 reqs1 hL
    have hmp1 : mp1.completed = false := by
      have hpres := putMultipartLoop_completed s3 now sc.reads sc.md5s
        sc.partResps size.toNat size (7 * 1024 * 1024)
        { etags := [], uploadId := xr.uploadId, key := xr.key,
          completed := false } 0 le_rfl hC7
      rw [hL] at hpres
      simpa using hpres
    simp only [putMultipart, hSM, hL]
    rw [Abort_open_trace s3 mp1 _ hmp1]
  · intro mp1 reqs1 hL
    have hmp1 : mp1.completed = false := by
      have hpres := putMultipartLoop_completed s3 now sc.reads sc.md5s
        sc.partResps size.toNat size (7 * 1024 * 1024)
        { etags := [], uploadId := xr.uploadId, key := xr.key,
          completed := false } 0 le_rfl hC7
      rw [hL] at hpres
      simpa using hpres
    refine ⟨completeRequest_contentType s3 mp1 _ now, ?_, ?_⟩
    · rcases hcr : sc.completeResp with e | cresp
      · have hc : Complete s3 mp1 contentType now (fun _ => sc.completeResp) =
            (.error (.transportErr e), mp1,
             [completeRequest s3 mp1
               (if contentType = "" then "application/octet-stream" else contentType)
               now]) := by
          simp [Complete, hmp1, hcr]
        refine ⟨.error (.transportErr e), [abortRequest s3 mp1], ?_⟩
        simp only [putMultipart, hSM, hL, hc]
        rw [Abort_open_trace s3 mp1 _ hmp1]
        simp
      · by_cases hs : cresp.statusCode = 200
        · have hc : Complete s3 mp1 contentType now (fun _ => sc.completeResp) =
              (.ok (), mp1,
               [completeRequest s3 mp1
                 (if contentType = "" then "application/octet-stream" else contentType)
                 now]) := by
            simp [Complete, hmp1, hcr, hs]
          refine ⟨.ok (), [], ?_⟩
          simp only [putMultipart, hSM, hL, hc]
        · have hc : Complete s3 mp1 contentType now (fun _ => sc.completeResp) =
              (.error (.errorf ("s3: Complete returned an error (HTTP " ++
                toString cresp.statusCode ++ ")")), mp1,
               [completeRequest s3 mp1
                 (if contentType = "" then "application/octet-stream" else contentType)
                 now]) := by
            simp [Complete, hmp1, hcr, hs]
          refine ⟨.error (.errorf ("s3: Complete returned an error (HTTP " ++
            toString cresp.statusCode ++ ")")), [abortRequest s3 mp1], ?_⟩
          simp only [putMultipart, hSM, hL, hc]
          rw [Abort_open_trace s3 mp1 _ hmp1]
          simp
    · intro cr hcr hcr200
      have hcomp : Complete s3 mp1 contentType now (fun _ => sc.completeResp) =
          (.ok (), mp1,
           [completeRequest s3 mp1
             (if contentType = "" then "application/octet-stream" else contentType)
             now]) := by
        have := Complete_ok s3 mp1 contentType now cr hmp1 hcr200
        rw [← hcr] at this
        exact this
      simp only [putMultipart, hSM, hL, hcomp]

/-- Witness for C8: a one-byte upload whose first read fails; the driver
aborts and surfaces the read error. -/
theorem C8_driver_failure_abort_success_complete_witness :
    scReadFail.startResp = .ok { statusCode := 200, headers := [], body := "x" } ∧
    ({ statusCode := 200, headers := [], body := "x" } : HttpResponse).statusCode = 200 ∧
    scReadFail.xmlUnmarshal "x" =
      .ok { xmlName := "", bucket := "b", key := "k", uploadId := "u" } ∧
    putMultipart s3Fix 1 "p" "ct" "D" scReadFail =
      (.error (.ioErr "boom"),
       [startMultipartRequest s3Fix "p" "D"] ++ [] ++
         [abortRequest s3Fix mpFresh]) := by
  refine ⟨rfl, rfl, rfl, ?_⟩
  have hL : putMultipartLoop s3Fix
      { etags := [], uploadId := "u", key := "k", completed := false }
      (7 * 1024 * 1024) 1 hC7 0 scReadFail.reads scReadFail.md5s
      scReadFail.partResps "D" = (.error (.ioErr "boom"), mpFresh, []) := by
    rw [putMultipartLoop_pos s3Fix
      { etags := [], uploadId := "u", key := "k", completed := false }
      0 scReadFail.reads scReadFail.md5s scReadFail.partResps "D"
      (by norm_num) hC7]
    rfl
  exact (C8_driver_failure_abort_success_complete s3Fix 1 "p" "ct" "D"
    scReadFail { statusCode := 200, headers := [], body := "x" } rfl rfl
    { xmlName := "", bucket := "b", key := "k", uploadId := "u" } rfl).1
    (.ioErr "boom") mpFresh [] hL

/-! ### Claim C9: the signer and query-parameter order -/

theorem filter_key_length_le_one (l : List (String × String)) (k : String)
    (h : (l.map Prod.fst).Nodup) :
    (l.filter (fun p => p.1 == k)).length ≤ 1 := by
  induction l with
  | nil => simp
  | cons p rest ih =>
    simp only [List.map_cons, List.nodup_cons] at h
    obtain ⟨hnotin, hnd⟩ := h
    by_cases hpk : p.1 = k
    · have hrest : rest.filter (fun q => q.1 == k) = [] := by
        rw [List.filter_eq_nil_iff]
        intro q hq hqk
        exact hnotin (by
          rw [show p.1 = q.1 from by
            rw [hpk]; exact (beq_iff_eq.mp hqk).symm]
          exact List.mem_map_of_mem Prod.fst hq)
      simp [List.filter_cons, hpk, hrest]
    · have h2 : (p.1 == k) = false := by simp [hpk]
      simp only [List.filter_cons, h2, Bool.false_eq_true, if_false]
      exact ih hnd

theorem perm_eq_of_short {l1 l2 : List (String × String)} (h : l1.Perm l2)
    (hlen : l2.length ≤ 1) : l1 = l2 := by
  cases l2 with
  | nil => exact h.eq_nil
  | cons b bs =>
    cases bs with
    | nil => exact List.perm_singleton.mp h
    | cons c cs => simp at hlen

theorem queryValues_perm_eq {q1 q2 : List (String × String)}
    (hperm : q1.Perm q2) (hnd : (q1.map Prod.fst).Nodup) (k : String) :
    queryValues q1 k = queryValues q2 k := by
  unfold queryValues
  have hnd2 : (q2.map Prod.fst).Nodup := ((hperm.map Prod.fst).nodup_iff).mp hnd
  have hf : (q1.filter (fun p => p.1 == k)).Perm (q2.filter (fun p => p.1 == k)) :=
    hperm.filter (fun p => p.1 == k)
  rw [perm_eq_of_short hf (filter_key_length_le_one q2 k hnd2)]

theorem canonicalQueryParts_perm {q1 q2 : List (String × String)}
    (hperm : q1.Perm q2) (hnd : (q1.map Prod.fst).Nodup) :
    canonicalQueryParts q1 = canonicalQueryParts q2 := by
  unfold canonicalQueryParts
  have hnd2 : (q2.map Prod.fst).Nodup := ((hperm.map Prod.fst).nodup_iff).mp hnd
  have hkeys : List.insertionSort goStrLe (q1.map Prod.fst).dedup =
      List.insertionSort goStrLe (q2.map Prod.fst).dedup := by
    apply List.eq_of_perm_of_sorted (r := goStrLe)
    · exact (List.perm_insertionSort goStrLe _).trans
        (((List.dedup_eq_self.mpr hnd).symm ▸ (hperm.map Prod.fst)).trans
          ((List.dedup_eq_self.mpr hnd2).symm ▸
            (List.perm_insertionSort goStrLe _).symm))
    · exact List.sorted_insertionSort goStrLe _
    · exact List.sorted_insertionSort goStrLe _
  rw [hkeys]
  have hv : (fun key => (queryValues q1 key).map (fun val =>
        if val = "" then queryEscape key
        else queryEscape key ++ "=" ++ queryEscape val)) =
      (fun key => (queryValues q2 key).map (fun val =>
        if val = "" then queryEscape key
        else queryEscape key ++ "=" ++ queryEscape val)) := by
    funext key
    rw [queryValues_perm_eq hperm hnd key]
  rw [hv]

/-- Claim C9 (amended): for requests identical except for the insertion
order of their query parameters, when the keys are pairwise distinct and
the parameters form the same key/value multiset, the signer produces
identical Authorization header values: it sorts the keys, escapes keys and
values (an empty value as the bare key), and signs the canonical string,
none of which depends on the insertion order. -/
theorem C9_signRequest_order_independent (s3 : S3) (now : String)
    (req : HttpRequest) (q1 q2 : List (String × String)) (hperm : q1.Perm q2)
    (hnd : (q1.map Prod.fst).Nodup) :
    headerGet (signRequest s3 now { req with query := q1 }).headers
        "Authorization" =
      headerGet (signRequest s3 now { req with query := q2 }).headers
        "Authorization" := by
  have hq := canonicalQueryParts_perm hperm hnd
  have hlen := hperm.length_eq
  simp only [signRequest]
  rw [hq, hlen]

/-- Witness for the amended C9: distinct keys a, b inserted in the two
orders sign identically. -/
theorem C9_signRequest_order_independent_witness :
    qC.Perm qD ∧ (qC.map Prod.fst).Nodup ∧
    headerGet (signRequest s3Fix "D" { reqBase with query := qC }).headers
        "Authorization" =
      headerGet (signRequest s3Fix "D" { reqBase with query := qD }).headers
        "Authorization" :=
  ⟨by decide, by decide,
   C9_signRequest_order_independent s3Fix "D" reqBase qC qD (by decide)
     (by decide)⟩

set_option maxRecDepth 8000 in
/-- Claim C9 counterexample: the claim quantifies over query parameters
forming the same key/value multiset in any insertion order, which includes
a duplicated key with its two values swapped; there the per-key value order
follows insertion order, the canonical strings differ, and the two
signatures differ. -/
theorem C9_counterexample_multiset :
    qA.Perm qB ∧
    headerGet (signRequest s3Fix "D" { reqBase with query := qA }).headers
        "Authorization" ≠
      headerGet (signRequest s3Fix "D" { reqBase with query := qB }).headers
        "Authorization" := by
  refine ⟨by decide, ?_⟩
  decide

end S3Go
